import Mathlib

/-!
# BashSpark core — verification of spec claims

Shallow embedding of the BashSpark shell interpreter core (a Bash-like
embeddable interpreter written in C++) together with proofs settling the
frozen claims about it.  Each definition is translated from the named
source function; definitions whose name matches the C++ symbol keep it.
-/

set_option maxRecDepth 2000

namespace BashSpark

/-! ## Operator nodes and `shell_node_operator::make`
Source: `src/BashSpark/shell/shell_node.cpp`, `shell_node.h`.

`shell_node_operator` carries a priority: `PRIORITY_PIPE = 5`,
`PRIORITY_AND = 4`, `PRIORITY_OR = 3`.  Evaluable nodes that matter to
`make` are: operator nodes (pipe/and/or, with left and right children) and
every other evaluable (commands, command blocks, ...), which `make` only
inspects through `dynamic_cast<shell_node_operator*>` (null for those).
We model non-operator evaluables as `leaf` (an atomic command) and `blk`
(a `shell_node_command_block` with its sub-commands), since the parser
hands `make` command blocks on the right-hand side.
-/

inductive OpTy where
  | pipe : OpTy
  | andOp : OpTy
  | orOp : OpTy

/-- `shell_node_operator::get_priority` for the three concrete operator
classes (`PRIORITY_PIPE`, `PRIORITY_AND`, `PRIORITY_OR`). -/
def OpTy.priority : OpTy → Nat
  | .pipe => 5
  | .andOp => 4
  | .orOp => 3

/-- Evaluable nodes as far as `shell_node_operator::make` can observe them:
`node` is an operator node, `leaf`/`blk` are non-operator evaluables
(`dynamic_cast<shell_node_operator*>` yields null on them). -/
inductive SNode where
  | leaf : Nat → SNode
  | blk : List SNode → SNode
  | node : OpTy → SNode → SNode → SNode

/-- Right-hand step of `shell_node_operator::make` (see `make` below):
given the current root's type `ct`, its left child `cl` and
`nCentralPriority = cp`, attach or rotate `r` onto the current root.

The C++ allocates the central operator node `N` with null children, fixes
up the left side, then the right side, mutating `pCentralOpp` in place.
After the left-rotation branch (`nLeftPriority < nCentralPriority`) the
code sets `pCentralOpp = pLeftOpp`, so every branch of the right-hand step
assigns `pCentralOpp->m_pRight`, overwriting the slot that the rotation
just stored `N` in; hence neither `N` nor the left node's former right
child can occur in the result in that case.  The embedding therefore
threads the observable state after the left step — the current root's
type, its left child and its priority (`nCentralPriority`) — and fills
the current root's right child in the right-hand step. -/
def makeRight (ct : OpTy) (cl : SNode) (cp : Nat) (r : SNode) : SNode :=
  match r with
  | .node rt rl rr =>
      if rt.priority < cp then .node ct cl r
      else .node rt (.node ct cl rl) rr
  | _ => .node ct cl r

def make (t : OpTy) (l r : SNode) : SNode :=
  -- Left step: pLeftOpp == nullptr, or priority comparison with >=;
  -- then the right step (makeRight) fills the current root's right child.
  match l with
  | .node lt ll _ =>
      if lt.priority ≥ t.priority then
        makeRight t l t.priority r
      else
        -- rotation: pCentral becomes the left node, nCentralPriority updated
        makeRight lt ll lt.priority r
  | _ => makeRight t l t.priority r

/-- Modelled from the claim's four-step fix-up description, kept as literal
as possible: steps 1–3 build the current root with `N`'s right child still
unassigned (the C++ null `unique_ptr`, here an arbitrary `hole`), step 4
then attaches or rotates the right-hand side against the current root.
The statement `C1_make_fixup` shows the result never depends on `hole`. -/
def claimStep4 (root r : SNode) : SNode :=
  -- Step 4 of the claim: an operator right with priority strictly less than
  -- the current root's priority attaches directly (as the current root's
  -- right child); otherwise the current root's right child becomes right's
  -- former left child, right's left child becomes the current root, and
  -- right is the new top.  A non-operator right attaches as the current
  -- root's right child.
  match root, r with
  | .node ct cl _, .node rt rl rr =>
      if rt.priority < ct.priority then .node ct cl r
      else .node rt (.node ct cl rl) rr
  | .node ct cl _, _ => .node ct cl r
  | x, _ => x

def makeClaim (hole : SNode) (t : OpTy) (l r : SNode) : SNode :=
  -- Steps 1–3: a non-operator left attaches directly; an operator left with
  -- priority ≥ N's attaches directly; otherwise rotate (N's left child
  -- becomes left's former right child, left's right child becomes N, and
  -- left is the root of the combined subtree).
  claimStep4
    (match l with
      | .node lt ll lr =>
          if lt.priority ≥ t.priority then .node t l hole
          else .node lt ll (.node t lr hole)
      | _ => .node t l hole)
    r

/-- The parser combines a left-to-right operator stream right-recursively:
`parse_command_group_oper` (shell_parser.cpp:705–737) passes the already
parsed command as `left` and the *entire remaining group* — wrapped by
`parse_command_group` in a `shell_node_command_block` — as `right`.
For `a||b&&c` this is the following nest of `make` calls. -/
def streamAOrBAndC : SNode :=
  make .orOp (.leaf 0) (.blk [make .andOp (.leaf 1) (.blk [.leaf 2])])

/-- C1: `shell_node_operator::make` combines two non-null evaluables by the
spec's four-step fix-up (non-operator left attaches directly; operator left
with priority ≥ N's attaches directly; lower-priority left is rotated in
and becomes the root; a right operator with priority strictly below the
current root's attaches directly, otherwise it is rotated the other way and
becomes the new top) — for every choice of interpretation of the not yet
assigned right child of `N`; and the left-to-right stream `a||b&&c`, as the
parser feeds it to `make`, yields the tree `a||(b&&c)`. -/
theorem C1_make_fixup :
    (∀ (hole : SNode) (t : OpTy) (l r : SNode), make t l r = makeClaim hole t l r) ∧
    streamAOrBAndC =
      .node .orOp (.leaf 0) (.blk [.node .andOp (.leaf 1) (.blk [.leaf 2])]) := by
  constructor
  · intro hole t l r
    cases l <;> cases r <;>
      simp only [make, makeRight, makeClaim, claimStep4] <;>
      (repeat' split) <;> simp_all <;> omega
  · rfl

/-! ## Variable tables and bare-variable lookup
Source: `shell_var.h`, `shell_env.h` (both are `unordered_map<string,string>`
wrappers with the same `has`/`get`/`set` shape) and
`shell_node_expand.cpp:151–169` (`shell_node_variable::get_value`,
`shell_node_dollar_variable::get_value`).  The maps are modelled
extensionally as `String → Option String`. -/

/-- A variable table (`shell_var::m_mVariables` / `shell_env`'s map). -/
def Smap : Type := String → Option String

/-- The table of a freshly constructed `shell_var` / `shell_env`: empty. -/
def emptyMap : Smap := fun _ => none

/-- `shell_var::has_var` (`m_mVariables.contains`). -/
def has_var (m : Smap) (k : String) : Bool := (m k).isSome

/-- `shell_var::get_var`: the mapped value, or `""` if the key is absent. -/
def get_var (m : Smap) (k : String) : String := (m k).getD ""

/-- `shell_var::set_var` (`insert_or_assign`). -/
def set_var (m : Smap) (k v : String) : Smap :=
  fun x => if x = k then some v else m x

/-- `shell_env::has_env` — same implementation shape as `has_var`. -/
def has_env (m : Smap) (k : String) : Bool := (m k).isSome

/-- `shell_env::get_env` — the mapped value, or `""` if absent. -/
def get_env (m : Smap) (k : String) : String := (m k).getD ""

/-- `shell_node_variable::get_value` (shell_node_expand.cpp:151–159):
locals first, then environment, else empty string. -/
def shell_node_variable_get_value (vars env : Smap) (name : String) : String :=
  if has_var vars name then get_var vars name
  else if has_env env name then get_env env name
  else ""

/-- `shell_node_dollar_variable::get_value` (shell_node_expand.cpp:161–169):
the same lookup, repeated verbatim in the source for the `${name}` node. -/
def shell_node_dollar_variable_get_value (vars env : Smap) (name : String) : String :=
  if has_var vars name then get_var vars name
  else if has_env env name then get_env env name
  else ""

/-- C7: bare `$name` (and `${name}`) expansion resolves locals first, then
the environment, else the empty string; locals shadow the environment, and
a missing variable yields the same value as an empty-valued one. -/
theorem C7_variable_lookup :
    (∀ (vars env : Smap) (name v : String),
      vars name = some v →
        shell_node_variable_get_value vars env name = v ∧
        shell_node_dollar_variable_get_value vars env name = v) ∧
    (∀ (vars env : Smap) (name v : String),
      vars name = none → env name = some v →
        shell_node_variable_get_value vars env name = v ∧
        shell_node_dollar_variable_get_value vars env name = v) ∧
    (∀ (vars env : Smap) (name : String),
      vars name = none → env name = none →
        shell_node_variable_get_value vars env name = "" ∧
        shell_node_dollar_variable_get_value vars env name = "") ∧
    (∀ (env : Smap) (name : String),
      env name = none →
        shell_node_variable_get_value (set_var emptyMap name "") env name =
          shell_node_variable_get_value emptyMap env name) := by
  refine ⟨?_, ?_, ?_, ?_⟩
  · intro vars env name v h
    constructor <;>
      simp [shell_node_variable_get_value, shell_node_dollar_variable_get_value,
        has_var, get_var, h]
  · intro vars env name v hv he
    constructor <;>
      simp [shell_node_variable_get_value, shell_node_dollar_variable_get_value,
        has_var, get_var, has_env, get_env, hv, he]
  · intro vars env name hv he
    constructor <;>
      simp [shell_node_variable_get_value, shell_node_dollar_variable_get_value,
        has_var, has_env, hv, he]
  · intro env name he
    simp [shell_node_variable_get_value, has_var, get_var, has_env,
      set_var, emptyMap, he]

/-- Witness for `C7_variable_lookup` at concrete tables. -/
theorem C7_variable_lookup_witness :
    shell_node_variable_get_value
      (set_var emptyMap "x" "local") (set_var emptyMap "x" "global") "x" = "local" := by
  have h := C7_variable_lookup.1 (set_var emptyMap "x" "local")
    (set_var emptyMap "x" "global") "x" "local" (by simp [set_var, emptyMap])
  exact h.1

/-! ## The special parameter `$#`
Source: `shell_node_expand.cpp:223–253` (`shell_node_dollar_special::get_value`,
case `'#'`) and `shell_arg.h` (`get_arg_size` returns
`m_vArgVariables.size()`, a `std::size_t`).  The `'#'` branch computes
`std::to_string(oSession.get_arg_size() - 1)` in `std::size_t` (unsigned
64-bit) arithmetic. -/

/-- Modulus of `std::size_t` on the 64-bit targets the project builds for. -/
def SIZE_T_MOD : Nat := 2 ^ 64

/-- `std::size_t` subtraction `a - b` (wraparound), for `b ≤ 2^64`. -/
def size_t_sub (a b : Nat) : Nat := (a % SIZE_T_MOD + SIZE_T_MOD - b) % SIZE_T_MOD

/-- `shell_arg::get_arg_size`: the size of the stored argument vector. -/
def get_arg_size (args : List String) : Nat := args.length

/-- The `'#'` case of `shell_node_dollar_special::get_value`:
`std::to_string(oSession.get_arg_size() - 1)`. -/
def dollar_special_hash (args : List String) : String :=
  Nat.repr (size_t_sub (get_arg_size args) 1)

/-- C10: `$#` expands to the decimal representation of
`get_arg_size() - 1` in unsigned `std::size_t` arithmetic; on an empty
positional-argument list this wraps to `2^64 - 1`. -/
theorem C10_dollar_hash_wraparound :
    dollar_special_hash [] = "18446744073709551615" ∧
    (∀ (args : List String), args ≠ [] → args.length < SIZE_T_MOD →
      dollar_special_hash args = Nat.repr (args.length - 1)) := by
  constructor
  · rfl
  · intro args hne hlt
    have hlen : 1 ≤ args.length := by
      cases args with
      | nil => exact absurd rfl hne
      | cons a t => simp
    have h2 : size_t_sub (get_arg_size args) 1 = args.length - 1 := by
      unfold size_t_sub get_arg_size SIZE_T_MOD
      unfold SIZE_T_MOD at hlt
      omega
    unfold dollar_special_hash
    rw [h2]

/-- Witness for `C10_dollar_hash_wraparound` at a concrete argument list:
`args = [argv0, "a", "b"]` gives `$# = "2"`. -/
theorem C10_dollar_hash_wraparound_witness :
    dollar_special_hash ["shell", "a", "b"] = "2" := by
  have h := C10_dollar_hash_wraparound.2 ["shell", "a", "b"]
    (by simp) (by norm_num [SIZE_T_MOD])
  simpa using h

/-! ## Word splitting and the command-expression gluing algorithm
Source: `shell_tools.h` (`split_string`), `shell_node_expand.cpp:38–76`
(`shell_node_command_expression::expand`) and
`shell_node_expand.cpp:128–137` (`shell_node_session_extractor::expand`).

A command-expression child is either a null pointer (an explicit split
point inserted by the parser for a space) or an expandable node; `expand`
only consumes the child through the sub-token list the child's own
`expand(…, split=true)` produced, so children are modelled as
`Option (List String)`: `none` for the null split marker, `some l` for a
child whose expansion yielded `l`. -/

/-- Loop body of `split_string` (shell_tools.h): scan characters, cut at
`' '`, `'\n'`, `'\t'`, and append only non-empty runs. `cur` is the pending
run (`nStart`/`nLength` in the C++), `acc` the output vector. -/
def split_string_go : List Char → List Char → List String → List String
  | [], cur, acc =>
      if cur.isEmpty then acc else acc ++ [String.mk cur]
  | c :: rest, cur, acc =>
      if c = ' ' ∨ c = '\n' ∨ c = '\t' then
        if cur.isEmpty then split_string_go rest [] acc
        else split_string_go rest [] (acc ++ [String.mk cur])
      else split_string_go rest (cur ++ [c]) acc

/-- `split_string` (shell_tools.h:46–70). -/
def split_string (s : String) : List String :=
  split_string_go s.data [] []

/-- `shell_node_session_extractor::expand` (shell_node_expand.cpp:128–137):
split the scalar value if requested, else push it whole. -/
def session_extractor_expand (value : String) (bSplit : Bool) : List String :=
  if bSplit then split_string value else [value]

/-- Loop of `shell_node_command_expression::expand`
(shell_node_expand.cpp:44–69).  `oWord` is the accumulating word buffer,
`vTokens` the output vector.  Note the C++ pushes
`oWord.str_reset()` for every non-empty sub-token list — the single-token
case is glued onto the buffer and immediately flushed as well. -/
def command_expression_expand_go :
    List (Option (List String)) → String → List String → List String
  | [], oWord, vTokens =>
      -- after the loop: a non-empty buffer is flushed as the final token
      if oWord.isEmpty then vTokens else vTokens ++ [oWord]
  | none :: rest, oWord, vTokens =>
      -- null child: flush the accumulating buffer if non-empty
      if oWord.isEmpty then command_expression_expand_go rest oWord vTokens
      else command_expression_expand_go rest "" (vTokens ++ [oWord])
  | some vSubTokens :: rest, oWord, vTokens =>
      match vSubTokens with
      | [] => command_expression_expand_go rest oWord vTokens
      | front :: fs =>
          -- first word is glued to the buffer and flushed
          let vTokens := vTokens ++ [oWord ++ front]
          -- middle tokens (indices 1 .. size-2) are standalone
          let vTokens := vTokens ++ fs.dropLast
          -- final word starts the new buffer (only when size > 1)
          let oWord := if fs.isEmpty then "" else fs.getLastD ""
          command_expression_expand_go rest oWord vTokens

/-- `shell_node_command_expression::expand` (shell_node_expand.cpp:38–76),
as a function of the children's own split expansions. -/
def command_expression_expand (children : List (Option (List String))) : List String :=
  command_expression_expand_go children "" []

/-- Modelled from the spec: the claimed gluing algorithm, whose single-token
case glues the sub-token onto the accumulating buffer *without* flushing it
(`a${multi}b` glues `a` to the first produced word and `b` to the last). -/
def command_expression_expand_claim_go :
    List (Option (List String)) → String → List String → List String
  | [], oWord, vTokens =>
      if oWord.isEmpty then vTokens else vTokens ++ [oWord]
  | none :: rest, oWord, vTokens =>
      if oWord.isEmpty then command_expression_expand_claim_go rest oWord vTokens
      else command_expression_expand_claim_go rest "" (vTokens ++ [oWord])
  | some vSubTokens :: rest, oWord, vTokens =>
      match vSubTokens with
      | [] => command_expression_expand_claim_go rest oWord vTokens
      | [t] => command_expression_expand_claim_go rest (oWord ++ t) vTokens
      | front :: fs =>
          command_expression_expand_claim_go rest (fs.getLastD "")
            (vTokens ++ [oWord ++ front] ++ fs.dropLast)

/-- Modelled from the spec: entry point of the claimed algorithm. -/
def command_expression_expand_claim (children : List (Option (List String))) : List String :=
  command_expression_expand_claim_go children "" []

/-- C2: the claimed single-token case ("glued onto the currently
accumulating word buffer without flushing it") disagrees with the code:
for `a${multi}b` with `${multi}` splitting into two fields `1`, `2`, the
code produces `["a", "1", "2b"]` — `a` is flushed alone instead of being
glued to the first produced word — while the claimed algorithm produces
`["a1", "2b"]`. -/
theorem C2_gluing_single_token_flush :
    command_expression_expand [some ["a"], some ["1", "2"], some ["b"]] =
      ["a", "1", "2b"] ∧
    command_expression_expand_claim [some ["a"], some ["1", "2"], some ["b"]] =
      ["a1", "2b"] ∧
    (["a", "1", "2b"] : List String) ≠ ["a1", "2b"] := by
  refine ⟨rfl, rfl, by decide⟩

/-- C9: a command consisting only of a reference to an unset variable
expands, with splitting, to *zero* tokens: `split_string` of the empty
string produces nothing and the empty sub-token list contributes nothing,
so `shell_node_command::evaluate`'s unconditional read of `vTokens[0]`
(shell_node_evaluate.cpp:52) is out of bounds for this input. -/
theorem C9_empty_argv :
    command_expression_expand
      [some (session_extractor_expand
        (shell_node_variable_get_value emptyMap emptyMap "unset") true)] = [] := by
  rfl

/-! ## Session derivation (`shell_session`)
Source: `shell_session.h:290–361`.  A `shell_session` holds
`shared_ptr`s to its environment (`shell_env`), argument list
(`shell_arg`), locals (`shell_var`) and function table (`shell_vtable`),
plus stream references.  Sharing a `shared_ptr` aliases the same
underlying object; copying constructs a new object from the old one.  The
embedding makes the aliasing explicit: each component kind lives in a
heap indexed by `Nat` references, a session holds references, sharing is
reference equality and copying is allocation of a fresh reference whose
cell starts as a snapshot of the parent's cell. -/

/-- A function table (`shell_vtable`): names to (non-owning) node ids. -/
def Vmap : Type := String → Option Nat

/-- Empty function table. -/
def emptyVmap : Vmap := fun _ => none

/-- `shell_vtable::set_func` (`insert_or_assign`). -/
def vtable_set_func (m : Vmap) (k : String) (f : Nat) : Vmap :=
  fun x => if x = k then some f else m x

/-- Heaps of the shared session components; `next*` are the allocation
frontiers (every live reference is below them). -/
structure Heap where
  envs : Nat → Smap
  vars : Nat → Smap
  args : Nat → List String
  vts : Nat → Vmap
  nextEnv : Nat
  nextVar : Nat
  nextArg : Nat
  nextVt : Nat

/-- A `shell_session`: references to its shared components and streams.
(The non-derived fields `m_pShell` and `m_nLastCommandResult` are omitted:
the former is copied into every derivation, the latter is freshly reset by
every constructor.) -/
structure Session where
  envRef : Nat
  varRef : Nat
  argRef : Nat
  vtRef : Nat
  inS : Nat
  outS : Nat
  errS : Nat

/-- A session's references are live in the heap. -/
def SessionWF (h : Heap) (s : Session) : Prop :=
  s.envRef < h.nextEnv ∧ s.varRef < h.nextVar ∧
  s.argRef < h.nextArg ∧ s.vtRef < h.nextVt

/-- `shell_session::set_env` through a given session's environment ref. -/
def heap_set_env (h : Heap) (r : Nat) (k v : String) : Heap :=
  { h with envs := fun i => if i = r then set_var (h.envs r) k v else h.envs i }

/-- `shell_session::set_var` through a given session's locals ref. -/
def heap_set_var (h : Heap) (r : Nat) (k v : String) : Heap :=
  { h with vars := fun i => if i = r then set_var (h.vars r) k v else h.vars i }

/-- `shell_session::set_func` through a given session's vtable ref. -/
def heap_set_func (h : Heap) (r : Nat) (k : String) (f : Nat) : Heap :=
  { h with vts := fun i => if i = r then vtable_set_func (h.vts r) k f else h.vts i }

/-- `shell_session::make_subsession` (shell_session.h:290–310):
`make_shared<shell_env>(*m_pEnv)` (copy), `m_pArg` (share),
`make_shared<shell_var>(*m_pVar)` (copy),
`make_shared<shell_vtable>(*m_pVtable)` (copy), caller-supplied streams. -/
def make_subsession (h : Heap) (s : Session) (newIn newOut newErr : Nat) :
    Heap × Session :=
  ({ h with
      envs := fun i => if i = h.nextEnv then h.envs s.envRef else h.envs i
      vars := fun i => if i = h.nextVar then h.vars s.varRef else h.vars i
      vts := fun i => if i = h.nextVt then h.vts s.vtRef else h.vts i
      nextEnv := h.nextEnv + 1
      nextVar := h.nextVar + 1
      nextVt := h.nextVt + 1 },
   { envRef := h.nextEnv, varRef := h.nextVar, argRef := s.argRef,
     vtRef := h.nextVt, inS := newIn, outS := newOut, errS := newErr })

/-- `shell_session::make_function_call` (shell_session.h:312–327):
`m_pEnv` (share), `make_shared<shell_arg>(std::move(oArg))` (new args),
`make_shared<shell_var>()` (fresh empty locals), `m_pVtable` (share),
streams unchanged. -/
def make_function_call (h : Heap) (s : Session) (oArg : List String) :
    Heap × Session :=
  ({ h with
      args := fun i => if i = h.nextArg then oArg else h.args i
      vars := fun i => if i = h.nextVar then emptyMap else h.vars i
      nextArg := h.nextArg + 1
      nextVar := h.nextVar + 1 },
   { envRef := s.envRef, varRef := h.nextVar, argRef := h.nextArg,
     vtRef := s.vtRef, inS := s.inS, outS := s.outS, errS := s.errS })

/-- `shell_session::make_pipe_left` (shell_session.h:329–341): all four
component pointers shared, stdout replaced by the pipe buffer. -/
def make_pipe_left (h : Heap) (s : Session) (newOut : Nat) : Heap × Session :=
  (h, { s with outS := newOut })

/-- `shell_session::make_pipe_right` (shell_session.h:343–358): all four
component pointers shared, stdin replaced by the pipe buffer. -/
def make_pipe_right (h : Heap) (s : Session) (newIn : Nat) : Heap × Session :=
  (h, { s with inS := newIn })

/-- C4: the four session derivations follow the spec's table.
`make_subsession` copies env/locals/functions (equal snapshots at
creation, and writes through the child's reference do not change the
parent's cell), shares the argument list (same reference) and takes the
caller-supplied streams; `make_function_call` shares env and functions,
allocates fresh empty locals and the new argument list, leaves streams and
the parent's own cells unchanged, and a write through the shared env
reference is a write to the parent's mapping; the pipe derivations share
all four components and replace exactly stdout resp. stdin. -/
theorem C4_session_derivations :
    (∀ (h : Heap) (s : Session) (i o e : Nat), SessionWF h s →
      ((make_subsession h s i o e).1.envs (make_subsession h s i o e).2.envRef
          = h.envs s.envRef ∧
        (make_subsession h s i o e).1.vars (make_subsession h s i o e).2.varRef
          = h.vars s.varRef ∧
        (make_subsession h s i o e).1.vts (make_subsession h s i o e).2.vtRef
          = h.vts s.vtRef) ∧
      (∀ k v, (heap_set_env (make_subsession h s i o e).1
            (make_subsession h s i o e).2.envRef k v).envs s.envRef
          = (make_subsession h s i o e).1.envs s.envRef) ∧
      (∀ k v, (heap_set_var (make_subsession h s i o e).1
            (make_subsession h s i o e).2.varRef k v).vars s.varRef
          = (make_subsession h s i o e).1.vars s.varRef) ∧
      (∀ k f, (heap_set_func (make_subsession h s i o e).1
            (make_subsession h s i o e).2.vtRef k f).vts s.vtRef
          = (make_subsession h s i o e).1.vts s.vtRef) ∧
      ((make_subsession h s i o e).2.argRef = s.argRef ∧
        (make_subsession h s i o e).2.inS = i ∧
        (make_subsession h s i o e).2.outS = o ∧
        (make_subsession h s i o e).2.errS = e)) ∧
    (∀ (h : Heap) (s : Session) (oArg : List String), SessionWF h s →
      ((make_function_call h s oArg).2.envRef = s.envRef ∧
        (make_function_call h s oArg).2.vtRef = s.vtRef) ∧
      (make_function_call h s oArg).1.vars (make_function_call h s oArg).2.varRef
        = emptyMap ∧
      (make_function_call h s oArg).1.args (make_function_call h s oArg).2.argRef
        = oArg ∧
      ((make_function_call h s oArg).2.inS = s.inS ∧
        (make_function_call h s oArg).2.outS = s.outS ∧
        (make_function_call h s oArg).2.errS = s.errS) ∧
      ((make_function_call h s oArg).1.vars s.varRef = h.vars s.varRef ∧
        (make_function_call h s oArg).1.args s.argRef = h.args s.argRef) ∧
      (∀ k v, (heap_set_env (make_function_call h s oArg).1
            (make_function_call h s oArg).2.envRef k v).envs s.envRef
          = set_var ((make_function_call h s oArg).1.envs s.envRef) k v)) ∧
    (∀ (h : Heap) (s : Session) (newOut : Nat),
      (make_pipe_left h s newOut).1 = h ∧
      (make_pipe_left h s newOut).2.envRef = s.envRef ∧
      (make_pipe_left h s newOut).2.varRef = s.varRef ∧
      (make_pipe_left h s newOut).2.argRef = s.argRef ∧
      (make_pipe_left h s newOut).2.vtRef = s.vtRef ∧
      (make_pipe_left h s newOut).2.inS = s.inS ∧
      (make_pipe_left h s newOut).2.errS = s.errS ∧
      (make_pipe_left h s newOut).2.outS = newOut) ∧
    (∀ (h : Heap) (s : Session) (newIn : Nat),
      (make_pipe_right h s newIn).1 = h ∧
      (make_pipe_right h s newIn).2.envRef = s.envRef ∧
      (make_pipe_right h s newIn).2.varRef = s.varRef ∧
      (make_pipe_right h s newIn).2.argRef = s.argRef ∧
      (make_pipe_right h s newIn).2.vtRef = s.vtRef ∧
      (make_pipe_right h s newIn).2.outS = s.outS ∧
      (make_pipe_right h s newIn).2.errS = s.errS ∧
      (make_pipe_right h s newIn).2.inS = newIn) := by
  refine ⟨?_, ?_, ?_, ?_⟩
  · intro h s i o e hwf
    obtain ⟨he, hv, ha, ht⟩ := hwf
    have hne : s.envRef ≠ h.nextEnv := Nat.ne_of_lt he
    have hnv : s.varRef ≠ h.nextVar := Nat.ne_of_lt hv
    have hnt : s.vtRef ≠ h.nextVt := Nat.ne_of_lt ht
    refine ⟨⟨?_, ?_, ?_⟩, ?_, ?_, ?_, ?_, ?_, ?_, ?_⟩ <;>
      simp [make_subsession, heap_set_env, heap_set_var, heap_set_func,
        hne, hnv, hnt]
  · intro h s oArg hwf
    obtain ⟨he, hv, ha, ht⟩ := hwf
    have hnv : s.varRef ≠ h.nextVar := Nat.ne_of_lt hv
    have hna : s.argRef ≠ h.nextArg := Nat.ne_of_lt ha
    refine ⟨⟨?_, ?_⟩, ?_, ?_, ⟨?_, ?_, ?_⟩, ⟨?_, ?_⟩, ?_⟩ <;>
      simp [make_function_call, heap_set_env, hnv, hna]
  · intro h s newOut
    refine ⟨rfl, rfl, rfl, rfl, rfl, rfl, rfl, rfl⟩
  · intro h s newIn
    refine ⟨rfl, rfl, rfl, rfl, rfl, rfl, rfl, rfl⟩

/-- Initial heap as built by the public `shell_session` constructor:
one env, one locals table, one argument vector, one vtable. -/
def heap0 : Heap :=
  { envs := fun _ => emptyMap, vars := fun _ => emptyMap,
    args := fun _ => [], vts := fun _ => emptyVmap,
    nextEnv := 1, nextVar := 1, nextArg := 1, nextVt := 1 }

/-- The session built by the public `shell_session` constructor. -/
def session0 : Session :=
  { envRef := 0, varRef := 0, argRef := 0, vtRef := 0,
    inS := 0, outS := 1, errS := 2 }

/-- Witness for `C4_session_derivations` on the initial session: a write
through the subshell's env does not change the parent's env cell. -/
theorem C4_session_derivations_witness :
    (heap_set_env (make_subsession heap0 session0 5 6 7).1
        (make_subsession heap0 session0 5 6 7).2.envRef "k" "v").envs
        session0.envRef
      = (make_subsession heap0 session0 5 6 7).1.envs session0.envRef ∧
    (make_subsession heap0 session0 5 6 7).2.argRef = session0.argRef := by
  have h := C4_session_derivations.1 heap0 session0 5 6 7
    (by refine ⟨?_, ?_, ?_, ?_⟩ <;> decide)
  exact ⟨h.2.1 "k" "v", h.2.2.2.2.1⟩

/-! ## Status codes, parser exceptions and the two depth guards
Source: `shell_status.h` (`SHELL_MAX_DEPTH = 16` and the status enum),
`shell_parser.cpp:104–116` (`increase_depth`/`decrease_depth`), the
RAII `depth_guard` (shell_parser.cpp:55–69), `shell_session.h:414–428`
(`increase_shell_depth`/`decrease_shell_depth`) and `command.cpp:87–112`
(`command_eval::run`). -/

/-- The core `shell_status` codes (shell_status.h; the command-specific
codes above `SHELL_CMD_ERROR` belong to the out-of-scope built-ins). -/
inductive shell_status where
  | SHELL_SUCCESS
  | SHELL_ERROR
  | SHELL_ERROR_SYNTAX_ERROR
  | SHELL_ERROR_SYNTAX_ERROR_UNCLOSED_SIMPLE_QUOTES
  | SHELL_ERROR_SYNTAX_ERROR_UNCLOSED_DOUBLE_QUOTES
  | SHELL_ERROR_SYNTAX_ERROR_UNCLOSED_BACK_QUOTES
  | SHELL_ERROR_SYNTAX_ERROR_UNCLOSED_PARENTHESES
  | SHELL_ERROR_SYNTAX_ERROR_UNCLOSED_BRACKETS
  | SHELL_ERROR_SYNTAX_ERROR_UNCLOSED_SQR_BRACKETS
  | SHELL_ERROR_SYNTAX_ERROR_UNCLOSED_SUBCOMMAND
  | SHELL_ERROR_SYNTAX_ERROR_UNCLOSED_VARIABLE
  | SHELL_ERROR_SYNTAX_ERROR_INVALID_VARIABLE_NAME
  | SHELL_ERROR_SYNTAX_ERROR_UNEXPECTED_TOKEN
  | SHELL_ERROR_SYNTAX_ERROR_UNEXPECTED_EOF
  | SHELL_ERROR_SYNTAX_ERROR_ARG_OUT_OF_RANGE
  | SHELL_ERROR_SYNTAX_ERROR_EMPTY_BLOCK
  | SHELL_ERROR_SYNTAX_ERROR_UNFINISHED_KEYWORD_IF
  | SHELL_ERROR_SYNTAX_ERROR_MISSING_KEYWORD_THEN
  | SHELL_ERROR_SYNTAX_ERROR_UNFINISHED_KEYWORD_LOOP
  | SHELL_ERROR_SYNTAX_ERROR_UNFINISHED_KEYWORD_FOR
  | SHELL_ERROR_SYNTAX_ERROR_MISSING_KEYWORD_IN
  | SHELL_ERROR_SYNTAX_ERROR_UNFINISHED_KEYWORD_WHILE
  | SHELL_ERROR_SYNTAX_ERROR_UNFINISHED_KEYWORD_UNTIL
  | SHELL_ERROR_SYNTAX_ERROR_MISSING_KEYWORD_DO
  | SHELL_ERROR_SYNTAX_ERROR_INVALID_FUNCTION_NAME
  | SHELL_ERROR_SYNTAX_ERROR_INVALID_FUNCTION_BODY
  | SHELL_ERROR_BAD_ENCODING
  | SHELL_ERROR_COMMAND_NOT_FOUND
  | SHELL_ERROR_MAX_DEPTH_REACHED
deriving DecidableEq

/-- `bs::SHELL_MAX_DEPTH` (shell_status.h:41). -/
def SHELL_MAX_DEPTH : Nat := 16

/-- `shell_parser::MAX_DEPTH = shell::MAX_DEPTH = SHELL_MAX_DEPTH`. -/
def MAX_DEPTH : Nat := SHELL_MAX_DEPTH

/-- A `shell_parser_exception`: its status kind and the failing byte
position (the stored source text is handled by `makeMessage` below). -/
structure shell_parser_exception where
  status : shell_status
  pos : Nat
deriving DecidableEq

/-- `shell_parser::increase_depth` (shell_parser.cpp:104–111): increment,
then throw a positioned max-depth error if the bound is exceeded.  The
result is the new counter value; an exception leaves the counter
incremented (the increment precedes the throw). -/
def increase_depth (d pos : Nat) : Except shell_parser_exception Nat :=
  let d' := d + 1
  if d' > MAX_DEPTH then
    .error ⟨.SHELL_ERROR_MAX_DEPTH_REACHED, pos⟩
  else .ok d'

/-- `shell_parser::decrease_depth` (shell_parser.cpp:113–115). -/
def decrease_depth (d : Nat) : Nat := if d > 0 then d - 1 else d

/-- The parser's RAII `depth_guard` (shell_parser.cpp:55–69) around a body
run at the increased depth.  The body returns its outcome (a value or a
thrown parser exception) together with the counter it leaves behind; the
guard's destructor decrements that counter on every scope exit, normal or
exceptional.  When `increase_depth` itself throws, the guard was never
constructed, so only the increment (which precedes the throw) remains. -/
def depth_guard {α : Type} (pos : Nat)
    (body : Nat → Except shell_parser_exception α × Nat) (d : Nat) :
    Except shell_parser_exception α × Nat :=
  match increase_depth d pos with
  | .error e => (.error e, d + 1)
  | .ok d1 =>
      let r := body d1
      (r.1, decrease_depth r.2)

/-- `shell_session::increase_shell_depth` (shell_session.h:421–428):
increments only while the result stays within `SHELL_MAX_DEPTH`, returning
whether the increment was allowed, together with the new counter. -/
def increase_shell_depth (d : Nat) : Bool × Nat :=
  if d + 1 ≤ SHELL_MAX_DEPTH then (true, d + 1) else (false, d)

/-- `shell_session::decrease_shell_depth` (shell_session.h:414–416). -/
def decrease_shell_depth (d : Nat) : Nat := if d > 0 then d - 1 else d

/-- `command_eval::run`, depth-guard skeleton (command.cpp:100–111): if the
session counter cannot be increased, report and return the max-depth
*status*; otherwise run the nested `shell::run` and decrement afterwards.
`runBody` maps the entered depth to the nested run's status and the
counter it leaves. -/
def command_eval_run (d : Nat) (runBody : Nat → shell_status × Nat) :
    shell_status × Nat :=
  let p := increase_shell_depth d
  if p.1 then
    let q := runBody p.2
    (q.1, decrease_shell_depth q.2)
  else (.SHELL_ERROR_MAX_DEPTH_REACHED, p.2)

/-- C5: both depth guards are bounded by the constant 16.  During a parse,
the first 16 nested constructs enter successfully and the 17th throws the
positioned max-depth syntax error; the guard decrements the counter on
normal and on exceptional exit of the guarded body.  The session keeps an
independent counter whose increment past 16 is refused, making `eval` at
depth 16 return the max-depth error status (a runtime error, not a thrown
parse exception), leaving the counter unchanged. -/
theorem C5_depth_guards :
    (MAX_DEPTH = SHELL_MAX_DEPTH ∧ SHELL_MAX_DEPTH = 16) ∧
    (∀ d pos, d < MAX_DEPTH → increase_depth d pos = .ok (d + 1)) ∧
    (∀ pos, increase_depth MAX_DEPTH pos =
      .error ⟨.SHELL_ERROR_MAX_DEPTH_REACHED, pos⟩) ∧
    (∀ (α : Type) (pos d : Nat) (body : Nat → Except shell_parser_exception α × Nat),
      d < MAX_DEPTH →
        depth_guard pos body d = ((body (d + 1)).1, decrease_depth (body (d + 1)).2)) ∧
    (∀ d, d < SHELL_MAX_DEPTH → increase_shell_depth d = (true, d + 1)) ∧
    (∀ d, SHELL_MAX_DEPTH ≤ d → increase_shell_depth d = (false, d)) ∧
    (∀ runBody, command_eval_run SHELL_MAX_DEPTH runBody =
      (.SHELL_ERROR_MAX_DEPTH_REACHED, SHELL_MAX_DEPTH)) := by
  refine ⟨⟨rfl, rfl⟩, ?_, ?_, ?_, ?_, ?_, ?_⟩
  · intro d pos hd
    simp only [increase_depth]
    rw [if_neg (by omega)]
  · intro pos
    simp [increase_depth]
  · intro α pos d body hd
    simp only [depth_guard, increase_depth]
    rw [if_neg (by omega)]
  · intro d hd
    simp only [increase_shell_depth]
    rw [if_pos (by omega)]
  · intro d hd
    simp only [increase_shell_depth]
    rw [if_neg (by omega)]
  · intro runBody
    simp [command_eval_run, increase_shell_depth, SHELL_MAX_DEPTH]

/-- Witness for `C5_depth_guards`: from depth 15 the 16th entry succeeds,
from depth 16 the 17th entry throws at the triggering position 7, and an
`eval` at session depth 16 returns the max-depth status. -/
theorem C5_depth_guards_witness :
    increase_depth 15 7 = .ok 16 ∧
    increase_depth 16 7 = .error ⟨.SHELL_ERROR_MAX_DEPTH_REACHED, 7⟩ ∧
    increase_shell_depth 15 = (true, 16) ∧
    command_eval_run 16 (fun d => (.SHELL_SUCCESS, d)) =
      (.SHELL_ERROR_MAX_DEPTH_REACHED, 16) := by
  refine ⟨C5_depth_guards.2.1 15 7 (by decide), ?_, ?_, ?_⟩
  · have h := C5_depth_guards.2.2.1 7
    simpa [MAX_DEPTH, SHELL_MAX_DEPTH] using h
  · exact C5_depth_guards.2.2.2.2.1 15 (by decide)
  · have h := C5_depth_guards.2.2.2.2.2.2 (fun d => (.SHELL_SUCCESS, d))
    simpa [SHELL_MAX_DEPTH] using h

/-! ## The `run` boundary
Source: `shell.cpp:115–159`.  The anonymous-namespace helper `eval`
parses and evaluates; all three `shell::run` overloads delegate to it.
The helper contains a `try { ... } catch (const shell_parser_exception &)`
block that would report the exception through `msg_error_syntax_error` and
return its status — but that block is preceded by an unconditional
`return pMainNode->evaluate(oSession);`, so it is unreachable and a parse
failure in `shell_parser::parse` propagates as a C++ exception out of
`eval` and out of `run`.  Parsed programs are abstracted to ids (`Nat`);
the evaluator is a parameter, since the claim concerns the boundary. -/

/-- The reachable part of `eval` (shell.cpp:117–125): parse — whose result
may be a thrown `shell_parser_exception` — then evaluate.  No handler is
live, so a parse error propagates unchanged. -/
def eval_run (parseResult : Except shell_parser_exception Nat)
    (evalNode : Nat → shell_status) : Except shell_parser_exception shell_status :=
  match parseResult with
  | .error e => .error e
  | .ok n => .ok (evalNode n)

/-- Modelled from the spec: the claimed boundary behavior — the dead
`catch` block of `eval` (shell.cpp:126–135) — reports the exception via
the host hook and returns its status instead of rethrowing. -/
def eval_run_claim (parseResult : Except shell_parser_exception Nat)
    (evalNode : Nat → shell_status) : Except shell_parser_exception shell_status :=
  match parseResult with
  | .error e => .ok e.status
  | .ok n => .ok (evalNode n)

/-- C3: a parse failure is *not* caught at the `run` boundary: the
exception propagates (`eval_run` returns it as an exception), unlike the
claimed behavior (`eval_run_claim`), which would convert it into the
exception's status.  Shown for every evaluator and every parse exception,
and in particular for the unclosed-parenthesis failure that the source
text `"("` produces at byte 0. -/
theorem C3_run_boundary_propagates :
    (∀ (e : shell_parser_exception) (evalNode : Nat → shell_status),
      eval_run (.error e) evalNode = .error e ∧
      eval_run_claim (.error e) evalNode = .ok e.status) ∧
    eval_run
        (.error ⟨.SHELL_ERROR_SYNTAX_ERROR_UNCLOSED_PARENTHESES, 0⟩)
        (fun _ => .SHELL_SUCCESS) =
      .error ⟨.SHELL_ERROR_SYNTAX_ERROR_UNCLOSED_PARENTHESES, 0⟩ := by
  exact ⟨fun e evalNode => ⟨rfl, rfl⟩, rfl⟩

/-! ## Parse-error diagnostics
Source: `shell_parser_exception.cpp` — `errorMessage` (40–106),
`getLineFromPosition` (115–135), `getCodePointAtByte` (143–182),
`makeMessage` (192–205).  Strings are modelled as byte lists
(`List Nat`), since the column scan is byte-oriented UTF-8. -/

/-- Bytes of an ASCII string literal (every string in `errorMessage` and
the fixed message parts are ASCII, where code points equal bytes). -/
def strBytes (s : String) : List Nat := s.data.map Char.toNat

/-- `errorMessage` (shell_parser_exception.cpp:40–106): the human-readable
kind for each core status.  (The `default:` branch returns
"Unknown error" and is only reachable for command-range codes, which are
outside the core enum embedded here.) -/
def errorMessage : shell_status → List Nat
  | .SHELL_SUCCESS => strBytes "Success"
  | .SHELL_ERROR => strBytes "Generic error"
  | .SHELL_ERROR_SYNTAX_ERROR => strBytes "Syntax error in command"
  | .SHELL_ERROR_SYNTAX_ERROR_UNCLOSED_SIMPLE_QUOTES => strBytes "Unclosed simple quotes"
  | .SHELL_ERROR_SYNTAX_ERROR_UNCLOSED_DOUBLE_QUOTES => strBytes "Unclosed double quotes"
  | .SHELL_ERROR_SYNTAX_ERROR_UNCLOSED_BACK_QUOTES => strBytes "Unclosed back quotes"
  | .SHELL_ERROR_SYNTAX_ERROR_UNCLOSED_PARENTHESES => strBytes "Unclosed parentheses"
  | .SHELL_ERROR_SYNTAX_ERROR_UNCLOSED_BRACKETS => strBytes "Unclosed brackets"
  | .SHELL_ERROR_SYNTAX_ERROR_UNCLOSED_SQR_BRACKETS => strBytes "Unclosed square brackets"
  | .SHELL_ERROR_SYNTAX_ERROR_UNCLOSED_SUBCOMMAND => strBytes "Unclosed subcommand"
  | .SHELL_ERROR_SYNTAX_ERROR_UNCLOSED_VARIABLE => strBytes "Unclosed variable"
  | .SHELL_ERROR_SYNTAX_ERROR_INVALID_VARIABLE_NAME => strBytes "Invalid variable name"
  | .SHELL_ERROR_SYNTAX_ERROR_UNEXPECTED_TOKEN => strBytes "Unexpected token"
  | .SHELL_ERROR_SYNTAX_ERROR_UNEXPECTED_EOF => strBytes "Unexpected end of file"
  | .SHELL_ERROR_SYNTAX_ERROR_ARG_OUT_OF_RANGE => strBytes "Argument out of range"
  | .SHELL_ERROR_SYNTAX_ERROR_EMPTY_BLOCK => strBytes "Empty block"
  | .SHELL_ERROR_SYNTAX_ERROR_UNFINISHED_KEYWORD_IF =>
      strBytes "Syntax error: \x27if\x27 keyword is not finished."
  | .SHELL_ERROR_SYNTAX_ERROR_MISSING_KEYWORD_THEN =>
      strBytes "Syntax error: \x27then\x27 keyword is missing."
  | .SHELL_ERROR_SYNTAX_ERROR_UNFINISHED_KEYWORD_LOOP =>
      strBytes "Syntax error: \x27loop\x27 keyword is not finished."
  | .SHELL_ERROR_SYNTAX_ERROR_UNFINISHED_KEYWORD_FOR =>
      strBytes "Syntax error: \x27for\x27 keyword is not finished."
  | .SHELL_ERROR_SYNTAX_ERROR_MISSING_KEYWORD_IN =>
      strBytes "Syntax error: \x27in\x27 keyword is missing."
  | .SHELL_ERROR_SYNTAX_ERROR_UNFINISHED_KEYWORD_WHILE =>
      strBytes "Syntax error: \x27while\x27 keyword is not finished."
  | .SHELL_ERROR_SYNTAX_ERROR_UNFINISHED_KEYWORD_UNTIL =>
      strBytes "Syntax error: \x27until\x27 keyword is not finished."
  | .SHELL_ERROR_SYNTAX_ERROR_MISSING_KEYWORD_DO =>
      strBytes "Syntax error: \x27do\x27 keyword is missing."
  | .SHELL_ERROR_SYNTAX_ERROR_INVALID_FUNCTION_NAME => strBytes "Invalid function name"
  | .SHELL_ERROR_SYNTAX_ERROR_INVALID_FUNCTION_BODY => strBytes "Invalid function body"
  | .SHELL_ERROR_BAD_ENCODING => strBytes "Bad encoding"
  | .SHELL_ERROR_COMMAND_NOT_FOUND => strBytes "Command not found"
  | .SHELL_ERROR_MAX_DEPTH_REACHED => strBytes "Maximum command nesting depth reached"

/-- `sCommand.rfind of a newline at or before nPos` as used by
`getLineFromPosition`: the largest index `i ≤ nPos` (and `i < size`) whose
byte is a newline. -/
def rfindNL (s : List Nat) (pos : Nat) : Option Nat :=
  (List.range (min (pos + 1) s.length)).reverse.find? fun i => s.getD i 0 = 10

/-- `sCommand.find of a newline at or after nPos`. -/
def findNL (s : List Nat) (pos : Nat) : Option Nat :=
  ((List.range s.length).drop pos).find? fun i => s.getD i 0 = 10

/-- `getLineFromPosition` (shell_parser_exception.cpp:115–135): scan
backward and forward for newlines from the failing byte offset.  When the
failing byte itself is a newline, `end` precedes `start` and the C++
`end - start` wraps in `size_t`, which `substr` clamps to the rest of the
string — the `else` branch below. -/
def getLineFromPosition (s : List Nat) (pos : Nat) : List Nat :=
  if pos ≥ s.length then []
  else
    let start := match rfindNL s pos with | none => 0 | some i => i + 1
    let stop := match findNL s pos with | none => s.length | some i => i
    if start ≤ stop then (s.drop start).take (stop - start)
    else s.drop start

/-- Length of a UTF-8 sequence from its first byte, per the bit tests of
`getCodePointAtByte`; `none` is the early `return nPos` case for an
invalid lead byte. -/
def utf8SeqLen (c : Nat) : Option Nat :=
  if c &&& 0x80 = 0 then some 1
  else if c &&& 0xE0 = 0xC0 then some 2
  else if c &&& 0xF0 = 0xE0 then some 3
  else if c &&& 0xF8 = 0xF0 then some 4
  else none

/-- Loop of `getCodePointAtByte` (shell_parser_exception.cpp:150–178).
`fuel` bounds the iteration count (each pass consumes at least one byte,
so `s.length` suffices); the `[]`/fuel-exhausted results model the loop
exit (the C++ throw there is unreachable for `nPos < size`). -/
def getCodePointAtByteGo : Nat → List Nat → Nat → Nat → Nat → Nat
  | 0, _, _, _, nPos => nPos
  | _ + 1, [], _, _, nPos => nPos
  | fuel + 1, c :: rest, nByteIndex, nCharIndex, nPos =>
      match utf8SeqLen c with
      | none => nPos
      | some k =>
          if nByteIndex ≤ nPos ∧ nPos < nByteIndex + k then nCharIndex
          else getCodePointAtByteGo fuel (rest.drop (k - 1))
            (nByteIndex + k) (nCharIndex + 1) nPos

/-- `getCodePointAtByte` (shell_parser_exception.cpp:143–182): the
code-point index of byte `nPos` in `s` — but `nPos` itself whenever
`nPos ≥ s.length` (the warning-documented early return). -/
def getCodePointAtByte (s : List Nat) (nPos : Nat) : Nat :=
  if nPos ≥ s.length then nPos
  else getCodePointAtByteGo s.length s 0 0 nPos

/-- `makeMessage` (shell_parser_exception.cpp:192–205).  Note the caret
column is `getCodePointAtByte(sLine, nPos)` — the *global* byte offset
probed inside the *extracted line*. -/
def makeMessage (nStatus : shell_status) (sCommand : List Nat) (nPos : Nat) :
    List Nat :=
  let sLine := getLineFromPosition sCommand nPos
  let nCodePoint := getCodePointAtByte sLine nPos
  let nAbsoluteCodePoint := getCodePointAtByte sCommand nPos
  errorMessage nStatus ++ [10] ++ sLine ++ [10]
    ++ List.replicate nCodePoint 32 ++ strBytes "^~~~"
    ++ [10] ++ strBytes "Code point: " ++ strBytes (Nat.repr nAbsoluteCodePoint)
    ++ [10] ++ strBytes "Byte: " ++ strBytes (Nat.repr nPos) ++ [10]

/-- Start of the line containing `pos` (one past the previous newline). -/
def line_start (s : List Nat) (pos : Nat) : Nat :=
  match rfindNL s pos with | none => 0 | some i => i + 1

/-- Modelled from the spec: "the number of spaces preceding the caret
equals the UTF-8 code-point column of the failing offset within that
extracted line" — the code-point index of the *line-local* byte offset. -/
def claim_caret_column (s : List Nat) (pos : Nat) : Nat :=
  getCodePointAtByte (getLineFromPosition s pos) (pos - line_start s pos)

/-- Modelled from the spec: `makeMessage` as the claim describes it, with
the caret placed at the code-point column within the extracted line. -/
def makeMessage_claim (nStatus : shell_status) (sCommand : List Nat) (nPos : Nat) :
    List Nat :=
  let sLine := getLineFromPosition sCommand nPos
  let nAbsoluteCodePoint := getCodePointAtByte sCommand nPos
  errorMessage nStatus ++ [10] ++ sLine ++ [10]
    ++ List.replicate (claim_caret_column sCommand nPos) 32 ++ strBytes "^~~~"
    ++ [10] ++ strBytes "Code point: " ++ strBytes (Nat.repr nAbsoluteCodePoint)
    ++ [10] ++ strBytes "Byte: " ++ strBytes (Nat.repr nPos) ++ [10]

/-- C6 counterexample: for the two-line source `"a\n("` failing at byte 2
(the parenthesis, column 0 of the second line), the code puts **2** spaces
before the caret — `getCodePointAtByte` is probed with the global offset,
which is past the extracted line `"("` and is returned unchanged — while
the claimed column is 0; the emitted message differs from the claimed
one. -/
theorem C6_caret_counterexample :
    makeMessage .SHELL_ERROR_SYNTAX_ERROR_UNCLOSED_PARENTHESES
        (strBytes "a\n(") 2 ≠
      makeMessage_claim .SHELL_ERROR_SYNTAX_ERROR_UNCLOSED_PARENTHESES
        (strBytes "a\n(") 2 ∧
    getCodePointAtByte (getLineFromPosition (strBytes "a\n(") 2) 2 = 2 ∧
    claim_caret_column (strBytes "a\n(") 2 = 0 := by
  refine ⟨by decide, by decide, by decide⟩

/-- C6 (amended): the message equals
`<kind>\n<line>\n<spaces>^~~~\nCode point: <N>\nByte: <N>\n` with the
space count `getCodePointAtByte(line, global offset)`.  For a failing
offset on the *first* line of the source (no newline at or before it) the
line starts at offset 0, the global offset is the line-local offset, and
the message coincides with the claimed format; for an offset at or beyond
the extracted line's byte length (in particular any offset on a later,
shorter line) the space count is the global byte offset itself. -/
theorem C6_caret_first_line :
    (∀ (st : shell_status) (src : List Nat) (pos : Nat),
      (∀ i, i ≤ pos → src.getD i 0 ≠ 10) →
      makeMessage st src pos = makeMessage_claim st src pos) ∧
    (∀ (src : List Nat) (pos : Nat),
      (getLineFromPosition src pos).length ≤ pos →
      getCodePointAtByte (getLineFromPosition src pos) pos = pos) := by
  constructor
  · intro st src pos hno
    have hr : rfindNL src pos = none := by
      apply List.find?_eq_none.mpr
      intro i hi
      simp only [List.mem_reverse, List.mem_range] at hi
      simp only [decide_eq_true_eq]
      exact hno i (by omega)
    have hls : line_start src pos = 0 := by simp [line_start, hr]
    have hcol : claim_caret_column src pos =
        getCodePointAtByte (getLineFromPosition src pos) pos := by
      simp [claim_caret_column, hls]
    simp [makeMessage, makeMessage_claim, hcol]
  · intro src pos hlen
    simp [getCodePointAtByte, hlen]

/-- Witness for `C6_caret_first_line`: a first-line failure (`"ab("`,
byte 2) where code and claim agree, and the beyond-line-length return. -/
theorem C6_caret_first_line_witness :
    makeMessage .SHELL_ERROR_SYNTAX_ERROR_UNCLOSED_PARENTHESES
        (strBytes "ab(") 2 =
      makeMessage_claim .SHELL_ERROR_SYNTAX_ERROR_UNCLOSED_PARENTHESES
        (strBytes "ab(") 2 ∧
    getCodePointAtByte (getLineFromPosition (strBytes "a\n(") 2) 2 = 2 := by
  constructor
  · exact C6_caret_first_line.1 _ (strBytes "ab(") 2 (by decide)
  · exact C6_caret_first_line.2 (strBytes "a\n(") 2 (by decide)

/-! ## Evaluation: loops and control-flow signals
Source: `shell_node_evaluate.cpp` — `shell_node_command::evaluate`
(39–73), `shell_node_command_block::evaluate` (81–86),
`shell_node_continue`/`shell_node_break` (173–179, throwing signals),
`shell_node_for` (181–195), `shell_node_while` (197–208),
`shell_node_until` (210–221), `shell_node_if` (159–171), and the `echo`
built-in (`command.cpp:49–85`) needed by the test programs.

A thrown `break_signal`/`continue_signal` is modelled as an `Outcome`
alternative to a normal status return; every evaluator that composes
sub-evaluations propagates signals exactly where the C++ has no matching
`catch`.  Recursion is fuelled; the fuel-exhausted result is a dummy
never reached in the theorems below. -/

/-- Expandable nodes needed by the loop programs. -/
inductive Exp where
  | word : String → Exp
  | varNode : String → Exp

/-- Evaluable nodes needed by the loop claims.  A command's expression and
a for-sequence are command expressions: children with `none` as the
parser's explicit split marker (see `command_expression_expand`). -/
inductive Ev where
  | cmd : List (Option Exp) → Ev
  | block : List Ev → Ev
  | brkNode : Ev
  | contNode : Ev
  | forNode : String → List (Option Exp) → Ev → Ev
  | whileNode : Ev → Ev → Ev
  | untilNode : Ev → Ev → Ev
  | ifNode : Ev → Ev → Option Ev → Ev

/-- Result of `evaluate`: a normal status return, or a thrown
`break_signal` / `continue_signal`. -/
inductive Outcome where
  | ret : shell_status → Outcome
  | brk : Outcome
  | cont : Outcome
deriving DecidableEq

/-- Evaluation state: the session's locals and environment, the last
command result and the bytes written to stdout. -/
structure EvalSt where
  vars : Smap
  env : Smap
  lastResult : shell_status
  out : String

/-- `shell_node_word::expand` pushes the text; `shell_node_variable`
resolves locals-then-env and splits when requested
(`shell_node_session_extractor::expand`). -/
def expandExp (st : EvalSt) (bSplit : Bool) : Exp → List String
  | .word s => [s]
  | .varNode n =>
      session_extractor_expand (shell_node_variable_get_value st.vars st.env n) bSplit

/-- A command expression's children, each expanded with `split=true`
(shell_node_expand.cpp:50–51), fed to the gluing loop. -/
def expandCmdExpr (st : EvalSt) (children : List (Option Exp)) : List String :=
  command_expression_expand (children.map (Option.map (expandExp st true)))

/-- `command_echo::run` (command.cpp:49–85): optional `-n` suppresses the
newline; remaining arguments are printed separated by single spaces. -/
def run_echo (args : List String) : shell_status × String :=
  match args with
  | a :: rest =>
      if a = "-n" then (.SHELL_SUCCESS, String.intercalate " " rest)
      else (.SHELL_SUCCESS, String.intercalate " " args ++ "\n")
  | [] => (.SHELL_SUCCESS, "\n")

mutual

/-- `evaluate` for the modelled node set; first argument is fuel. -/
def evalNode : Nat → Ev → EvalSt → Outcome × EvalSt
  | 0, _, st => (.ret .SHELL_ERROR, st)
  | fuel + 1, node, st =>
      match node with
      | .cmd expr =>
          -- shell_node_command::evaluate: expand with splitting, look up
          -- vTokens[0] in the registry (only `echo` is registered here),
          -- run it on vTokens[1..] and store the status as last result.
          match expandCmdExpr st expr with
          | [] =>
              -- C++ reads vTokens[0] out of bounds here (see C9)
              (.ret .SHELL_ERROR, st)
          | name :: args =>
              if name = "echo" then
                let r := run_echo args
                (.ret r.1,
                  { st with out := st.out ++ r.2, lastResult := r.1 })
              else
                -- command-not-found: report and return without touching
                -- the last command result
                (.ret .SHELL_ERROR_COMMAND_NOT_FOUND, st)
      | .block subs => evalSeq fuel subs st
      | .brkNode => (.brk, st)
      | .contNode => (.cont, st)
      | .forNode v seq body =>
          -- the sequence expression is expanded once, with splitting
          evalFor fuel v (expandCmdExpr st seq) body st
      | .whileNode cond body => evalWhile fuel cond body st
      | .untilNode cond body => evalUntil fuel cond body st
      | .ifNode cond thenB elseB =>
          let c := evalNode fuel cond st
          match c.1 with
          | .ret s =>
              if s = .SHELL_SUCCESS then evalNode fuel thenB c.2
              else
                match elseB with
                | some e => evalNode fuel e c.2
                | none => (.ret c.2.lastResult, c.2)
          | sig => (sig, c.2)

/-- `shell_node_command_block::evaluate`: evaluate children in order
(statuses ignored; signals have no handler and unwind out), then return
the session's last command result. -/
def evalSeq : Nat → List Ev → EvalSt → Outcome × EvalSt
  | 0, _, st => (.ret .SHELL_ERROR, st)
  | _ + 1, [], st => (.ret st.lastResult, st)
  | fuel + 1, n :: rest, st =>
      let r := evalNode fuel n st
      match r.1 with
      | .ret _ => evalSeq fuel rest r.2
      | sig => (sig, r.2)

/-- `shell_node_for::evaluate` loop: assign the loop variable as a local
before each iteration; `continue_signal` ends the iteration,
`break_signal` exits the loop; afterwards return the last result. -/
def evalFor : Nat → String → List String → Ev → EvalSt → Outcome × EvalSt
  | 0, _, _, _, st => (.ret .SHELL_ERROR, st)
  | _ + 1, _, [], _, st => (.ret st.lastResult, st)
  | fuel + 1, v, item :: rest, body, st =>
      let st1 := { st with vars := set_var st.vars v item }
      let r := evalNode fuel body st1
      match r.1 with
      | .brk => (.ret r.2.lastResult, r.2)
      | .cont => evalFor fuel v rest body r.2
      | .ret _ => evalFor fuel v rest body r.2

/-- `shell_node_while::evaluate`: loop while the condition (evaluated
outside the try block — its signals propagate) returns success. -/
def evalWhile : Nat → Ev → Ev → EvalSt → Outcome × EvalSt
  | 0, _, _, st => (.ret .SHELL_ERROR, st)
  | fuel + 1, cond, body, st =>
      let c := evalNode fuel cond st
      match c.1 with
      | .ret s =>
          if s = .SHELL_SUCCESS then
            let r := evalNode fuel body c.2
            match r.1 with
            | .brk => (.ret r.2.lastResult, r.2)
            | .cont => evalWhile fuel cond body r.2
            | .ret _ => evalWhile fuel cond body r.2
          else (.ret c.2.lastResult, c.2)
      | sig => (sig, c.2)

/-- `shell_node_until::evaluate`: loop while the condition does *not*
return success. -/
def evalUntil : Nat → Ev → Ev → EvalSt → Outcome × EvalSt
  | 0, _, _, st => (.ret .SHELL_ERROR, st)
  | fuel + 1, cond, body, st =>
      let c := evalNode fuel cond st
      match c.1 with
      | .ret s =>
          if s = .SHELL_SUCCESS then (.ret c.2.lastResult, c.2)
          else
            let r := evalNode fuel body c.2
            match r.1 with
            | .brk => (.ret r.2.lastResult, r.2)
            | .cont => evalUntil fuel cond body r.2
            | .ret _ => evalUntil fuel cond body r.2
      | sig => (sig, c.2)

end

/-- Initial evaluation state: empty locals/env, success, nothing
written. -/
def evalSt0 : EvalSt :=
  { vars := emptyMap, env := emptyMap,
    lastResult := .SHELL_SUCCESS, out := "" }

/-- `echo -n $num` as a command expression. -/
def echoNumCmd : Ev :=
  .cmd [some (.word "echo"), none, some (.word "-n"), none,
    some (.varNode "num")]

/-- `1 2 3 4 5` as the for-sequence expression. -/
def seq12345 : List (Option Exp) :=
  [some (.word "1"), none, some (.word "2"), none, some (.word "3"), none,
    some (.word "4"), none, some (.word "5")]

/-- `for num in 1 2 3 4 5; do echo -n $num; break; done`. -/
def forBreakProg : Ev := .forNode "num" seq12345 (.block [echoNumCmd, .brkNode])

/-- `for num in 1 2 3 4 5; do echo -n $num; continue; done`. -/
def forContinueProg : Ev :=
  .forNode "num" seq12345 (.block [echoNumCmd, .contNode])

/-- C8: the for node expands its sequence once with splitting and assigns
the loop variable as a local before each iteration; a body `break` stops
`for`/`while`/`until` immediately and a `continue` only ends the current
iteration, while signals raised inside a non-loop construct (a command
block or an `if`) propagate untouched; consequently the break program
prints exactly `1` and the continue program exactly `12345`. -/
theorem C8_loop_signals :
    ((evalNode 100 forBreakProg evalSt0).2.out = "1" ∧
      (evalNode 100 forBreakProg evalSt0).1 = .ret .SHELL_SUCCESS) ∧
    ((evalNode 100 forContinueProg evalSt0).2.out = "12345" ∧
      (evalNode 100 forContinueProg evalSt0).1 = .ret .SHELL_SUCCESS) ∧
    (∀ (fuel : Nat) (sub : Ev) (rest : List Ev) (st st' : EvalSt) (sig : Outcome),
      sig = .brk ∨ sig = .cont →
      evalNode fuel sub st = (sig, st') →
      evalSeq (fuel + 1) (sub :: rest) st = (sig, st')) ∧
    (∀ (fuel : Nat) (cond thenB : Ev) (elseB : Option Ev) (st st₁ st₂ : EvalSt)
        (sig : Outcome),
      sig = .brk ∨ sig = .cont →
      evalNode fuel cond st = (.ret .SHELL_SUCCESS, st₁) →
      evalNode fuel thenB st₁ = (sig, st₂) →
      evalNode (fuel + 1) (.ifNode cond thenB elseB) st = (sig, st₂)) ∧
    (∀ (fuel : Nat) (v : String) (item : String) (rest : List String)
        (body : Ev) (st st' : EvalSt),
      evalNode fuel body { st with vars := set_var st.vars v item } = (.brk, st') →
      evalFor (fuel + 1) v (item :: rest) body st = (.ret st'.lastResult, st')) ∧
    (∀ (fuel : Nat) (v : String) (item : String) (rest : List String)
        (body : Ev) (st st' : EvalSt),
      evalNode fuel body { st with vars := set_var st.vars v item } = (.cont, st') →
      evalFor (fuel + 1) v (item :: rest) body st = evalFor fuel v rest body st') ∧
    (∀ (fuel : Nat) (cond body : Ev) (st st₁ st₂ : EvalSt),
      evalNode fuel cond st = (.ret .SHELL_SUCCESS, st₁) →
      evalNode fuel body st₁ = (.brk, st₂) →
      evalWhile (fuel + 1) cond body st = (.ret st₂.lastResult, st₂)) ∧
    (∀ (fuel : Nat) (cond body : Ev) (st st₁ st₂ : EvalSt),
      evalNode fuel cond st = (.ret .SHELL_ERROR, st₁) →
      evalNode fuel body st₁ = (.cont, st₂) →
      evalUntil (fuel + 1) cond body st = evalUntil fuel cond body st₂) := by
  refine ⟨⟨?_, ?_⟩, ⟨?_, ?_⟩, ?_, ?_, ?_, ?_, ?_, ?_⟩
  · rfl
  · rfl
  · rfl
  · rfl
  · intro fuel sub rest st st' sig hsig h
    rcases hsig with h1 | h1 <;> subst h1 <;> simp [evalSeq, h]
  · intro fuel cond thenB elseB st st₁ st₂ sig hsig hc ht
    rcases hsig with h1 | h1 <;> subst h1 <;> simp [evalNode, hc, ht]
  · intro fuel v item rest body st st' h
    simp [evalFor, h]
  · intro fuel v item rest body st st' h
    simp [evalFor, h]
  · intro fuel cond body st st₁ st₂ hc hb
    simp [evalWhile, hc, hb]
  · intro fuel cond body st st₁ st₂ hc hb
    simp [evalUntil, hc, hb]

/-- Witness for `C8_loop_signals`: the propagation and catch rules applied
to the concrete break/continue bodies. -/
theorem C8_loop_signals_witness :
    evalSeq 3 [Ev.brkNode] evalSt0 = (.brk, evalSt0) ∧
    evalFor 3 "num" ["3"] Ev.brkNode evalSt0 =
      (.ret .SHELL_SUCCESS,
        { evalSt0 with vars := set_var evalSt0.vars "num" "3" }) := by
  constructor
  · exact C8_loop_signals.2.2.1 2 .brkNode [] evalSt0 evalSt0 .brk (Or.inl rfl) rfl
  · exact C8_loop_signals.2.2.2.2.1 2 "num" "3" [] .brkNode evalSt0
      { evalSt0 with vars := set_var evalSt0.vars "num" "3" } rfl

end BashSpark
